import Mathlib

/-!
Verification development for the recurring-billing core of the
olamhayeled-website repository, a shallow embedding of
`netlify/functions/payment.js`.

Modelling conventions:
* JS strings are Lean `String`; an absent/empty JSON string field is `""`
  (both are falsy in the JS guards `if (!x)`), and absent numeric ids are `0`.
* The wall-clock `created_at` fields (`new Date().toISOString()`) are omitted:
  no claim refers to them, and record recency coincides with insertion order
  (ids come from the strictly increasing `idCounter`).
* `new Date(start_date)` / `setMonth(getMonth()+1)` / `toISOString()` are
  modelled for ISO `YYYY-MM-DD` inputs with the ECMAScript date-normalisation
  semantics (day overflow rolls into the following month), assuming a UTC
  server environment (Netlify functions run in UTC).  An unparseable date
  makes `toISOString()` throw, which the handler's catch turns into a 500.
-/

namespace OlamPay

/-- A calendar date, month and day 1-based as in ISO strings. -/
structure Date where
  year : Nat
  month : Nat
  day : Nat
deriving DecidableEq

/-- Gregorian leap-year flag as a 0/1 value (ECMAScript `DaysInYear`). -/
def leapFlag (y : Nat) : Nat :=
  if y % 4 = 0 ∧ (y % 100 ≠ 0 ∨ y % 400 = 0) then 1 else 0

/-- Number of days in a month (ECMAScript `DaysInMonth`). -/
def daysInMonth (y m : Nat) : Nat :=
  if m = 2 then 28 + leapFlag y
  else if m = 4 ∨ m = 6 ∨ m = 9 ∨ m = 11 then 30
  else 31

/-- A date is valid when its month is 1..12 and its day fits the month. -/
def ValidDate (d : Date) : Prop :=
  1 ≤ d.month ∧ d.month ≤ 12 ∧ 1 ≤ d.day ∧ d.day ≤ daysInMonth d.year d.month

instance (d : Date) : Decidable (ValidDate d) :=
  inferInstanceAs (Decidable (1 ≤ d.month ∧ d.month ≤ 12 ∧ 1 ≤ d.day ∧
    d.day ≤ daysInMonth d.year d.month))

/-- Days in months strictly before month `m` of year `y`. -/
def daysBeforeMonth (y m : Nat) : Nat :=
  match m with
  | 1 => 0
  | 2 => 31
  | 3 => 59 + leapFlag y
  | 4 => 90 + leapFlag y
  | 5 => 120 + leapFlag y
  | 6 => 151 + leapFlag y
  | 7 => 181 + leapFlag y
  | 8 => 212 + leapFlag y
  | 9 => 243 + leapFlag y
  | 10 => 273 + leapFlag y
  | 11 => 304 + leapFlag y
  | 12 => 334 + leapFlag y
  | _ => 0

/-- Days in years strictly before year `y` (year 0 counts as a leap year,
as in the proleptic Gregorian calendar used by ECMAScript dates). -/
def daysBeforeYear (y : Nat) : Nat :=
  365 * y + (y + 3) / 4 - (y + 99) / 100 + (y + 399) / 400

/-- Linear day count of a date; two dates compare as their day counts do. -/
def toDays (d : Date) : Nat :=
  daysBeforeYear d.year + daysBeforeMonth d.year d.month + d.day

/-- `nextPaymentDate.setMonth(nextPaymentDate.getMonth() + 1)` from
`payment.js` line 148: the month index is incremented (rolling the year at
December) and the ECMAScript time-value normalisation then rolls an
out-of-range day forward into the following month — it does NOT clamp. -/
def advanceMonth (d : Date) : Date :=
  let y1 := if d.month = 12 then d.year + 1 else d.year
  let m1 := if d.month = 12 then 1 else d.month + 1
  let dm := daysInMonth y1 m1
  if d.day ≤ dm then ⟨y1, m1, d.day⟩
  else
    let y2 := if m1 = 12 then y1 + 1 else y1
    let m2 := if m1 = 12 then 1 else m1 + 1
    ⟨y2, m2, d.day - dm⟩

/-- Parse a run of decimal digits, most significant first. -/
def parseNatAux : List Char → Nat → Option Nat
  | [], acc => some acc
  | c :: rest, acc =>
      if c.isDigit then parseNatAux rest (acc * 10 + (c.toNat - 48)) else none

/-- Parse a non-empty all-digit character list as a `Nat`. -/
def parseNat? : List Char → Option Nat
  | [] => none
  | c :: rest => parseNatAux (c :: rest) 0

/-- Split a character list on `-` separators. -/
def splitDash : List Char → List (List Char)
  | [] => [[]]
  | c :: rest =>
      let r := splitDash rest
      if c = '-' then [] :: r
      else
        match r with
        | [] => [[c]]
        | g :: gs => (c :: g) :: gs

/-- `new Date(start_date)` for an ISO `YYYY-MM-DD` string: parses the three
numeric components and fails (Invalid Date) when the components are not
numeric or denote a nonexistent calendar day. -/
def parseDate (s : String) : Option Date :=
  match splitDash s.toList with
  | [ys, ms, ds] =>
      match parseNat? ys, parseNat? ms, parseNat? ds with
      | some y, some m, some dd =>
          if 1 ≤ m ∧ m ≤ 12 ∧ 1 ≤ dd ∧ dd ≤ daysInMonth y m then
            some ⟨y, m, dd⟩
          else none
      | _, _, _ => none
  | _ => none

/-- Zero-pad a number to two digits. -/
def pad2 (n : Nat) : String := if n < 10 then "0" ++ toString n else toString n

/-- Zero-pad a number to four digits. -/
def pad4 (n : Nat) : String :=
  if n < 10 then "000" ++ toString n
  else if n < 100 then "00" ++ toString n
  else if n < 1000 then "0" ++ toString n
  else toString n

/-- `date.toISOString().split('T')[0]` — the ISO `YYYY-MM-DD` form. -/
def formatDate (d : Date) : String :=
  pad4 d.year ++ "-" ++ pad2 d.month ++ "-" ++ pad2 d.day

/-- `date.toLocaleDateString('he-IL')` — rendered as `D.M.YYYY`. -/
def hebDate (d : Date) : String :=
  toString d.day ++ "." ++ toString d.month ++ "." ++ toString d.year

/-- The fixed monthly fee (`MONTHLY_AMOUNT = 3500` in `payment.js`). -/
def MONTHLY_AMOUNT : Nat := 3500

/-- A registered customer (the `customers` array entries). -/
structure Customer where
  id : Nat
  parent_name : String
  phone : String
  email : String
  child_name : String
  child_age : String
  allergies : String
  notes : String
  status : String
deriving DecidableEq

/-- A stored payment method (the `paymentMethods` array entries).  Card and
bank methods carry different fields in the JS objects; absent fields are
`none`.  Note `/add-standing-order` stores the FULL `account_number`. -/
structure PaymentMethod where
  id : Nat
  customer_id : Nat
  payment_type : String
  card_number_last4 : Option String
  card_holder_name : Option String
  card_expiry_month : Option String
  card_expiry_year : Option String
  bank_code : Option String
  branch_code : Option String
  account_number : Option String
  account_holder_name : Option String
  is_default : Bool
  is_active : Bool
deriving DecidableEq

/-- A recurring billing agreement (the `recurringPayments` array entries). -/
structure RecurringPayment where
  id : Nat
  customer_id : Nat
  payment_method_id : Nat
  amount : Nat
  currency : String
  frequency : String
  start_date : String
  end_date : Option String
  next_payment_date : String
  status : String
deriving DecidableEq

/-- A ledger entry (the `payments` array entries). -/
structure Payment where
  id : Nat
  customer_id : Nat
  payment_method_id : Nat
  amount : Nat
  currency : String
  payment_type : String
  status : String
  due_date : String
  description : String
deriving DecidableEq

/-- The redacted view produced by `/payment-methods`: the spread
`{...m, card_number: ..., account_number: ...}` copies every stored field,
adds a masked `card_number`, and REPLACES `account_number` by its masked
form. -/
structure PaymentMethodView where
  id : Nat
  customer_id : Nat
  payment_type : String
  card_number_last4 : Option String
  card_holder_name : Option String
  card_expiry_month : Option String
  card_expiry_year : Option String
  bank_code : Option String
  branch_code : Option String
  account_number : Option String
  account_holder_name : Option String
  is_default : Bool
  is_active : Bool
  card_number : Option String
deriving DecidableEq

/-- The `/payment-methods` projection of one stored method. -/
def toView (m : PaymentMethod) : PaymentMethodView :=
  ⟨m.id, m.customer_id, m.payment_type, m.card_number_last4,
   m.card_holder_name, m.card_expiry_month, m.card_expiry_year,
   m.bank_code, m.branch_code,
   (match m.account_number with
    | some a => some ("****" ++ a.takeRight 4)
    | none => none),
   m.account_holder_name, m.is_default, m.is_active,
   (match m.card_number_last4 with
    | some l4 => some ("****" ++ l4)
    | none => none)⟩

/-- The module-level mutable state of `payment.js`. -/
structure Store where
  customers : List Customer
  paymentMethods : List PaymentMethod
  recurringPayments : List RecurringPayment
  payments : List Payment
  idCounter : Nat
deriving DecidableEq

/-- The state at module load: empty arrays, `idCounter = 1`. -/
def initStore : Store := ⟨[], [], [], [], 1⟩

/-- A routed request with its JSON body fields (`""`/`0` encode absent). -/
inductive Req where
  | register (parent_name phone email child_name child_age allergies notes : String)
  | addCreditCard (customer_id : Nat)
      (card_number card_holder_name expiry_month expiry_year cvv : String)
  | addStandingOrder (customer_id : Nat)
      (bank_code branch_code account_number account_holder_name : String)
  | createRecurring (customer_id payment_method_id amount : Nat)
      (start_date frequency end_date : String)
  | listMethods (customer_id : Nat)
  | paymentHistory (customer_id limit : Nat)
  | cancelRecurring (recurring_id : Nat)
deriving DecidableEq

/-- The response bodies the handler can produce; `fail` carries the HTTP
status (400 validations, 500 from the catch block) — every other
constructor is a 200 with `success: true`. -/
inductive Resp where
  | fail (statusCode : Nat) (error : String)
  | registered (customer_id : Nat)
  | methodAdded (method_id : Nat) (last4 : Option String) (message : String)
  | recurringCreated (recurring_id amount : Nat) (message : String)
  | methodList (methods : List PaymentMethodView)
  | historyList (payments : List Payment)
  | cancelled (message : String)
deriving DecidableEq

/-- The `success` flag of the JSON body. -/
def Resp.isSuccess : Resp → Bool
  | .fail _ _ => false
  | _ => true

/-- The list carried by a `/payment-history` response. -/
def Resp.historyPayments : Resp → List Payment
  | .historyList l => l
  | _ => []

/-- `amount || MONTHLY_AMOUNT`. -/
def effAmount (amount : Nat) : Nat :=
  if amount = 0 then MONTHLY_AMOUNT else amount

/-- `frequency || 'monthly'`. -/
def effFreq (f : String) : String := if f = "" then "monthly" else f

/-- `end_date || null`. -/
def effEnd (e : String) : Option String := if e = "" then none else some e

/-- `limit || 12`. -/
def effLimit (l : Nat) : Nat := if l = 0 then 12 else l

/-- `recurring.status = 'cancelled'` applied to one agreement object. -/
def setCancelled (r : RecurringPayment) : RecurringPayment :=
  ⟨r.id, r.customer_id, r.payment_method_id, r.amount, r.currency,
   r.frequency, r.start_date, r.end_date, r.next_payment_date, "cancelled"⟩

/-- `recurringPayments.find(r => r.id === recurring_id)` followed by the
in-place `status` mutation: the first matching agreement (if any) has its
status set to `cancelled`; everything else is untouched. -/
def cancelIn (rid : Nat) : List RecurringPayment → List RecurringPayment
  | [] => []
  | r :: rest =>
      if r.id = rid then setCancelled r :: rest else r :: cancelIn rid rest

/-- The request handler of `payment.js`, one branch per route, acting on the
module state and returning the new state with the response. -/
def handle (s : Store) (req : Req) : Store × Resp :=
  match req with
  | .register pn ph em cn ca al no =>
      if pn = "" ∨ ph = "" ∨ cn = "" then
        (s, .fail 400 "Missing required fields")
      else
        (⟨s.customers ++ [⟨s.idCounter, pn, ph, em, cn, ca, al, no, "active"⟩],
          s.paymentMethods, s.recurringPayments, s.payments, s.idCounter + 1⟩,
         .registered s.idCounter)
  | .addCreditCard cid num name expM expY _cvv =>
      if cid = 0 ∨ num = "" ∨ name = "" ∨ expM = "" ∨ expY = "" then
        (s, .fail 400 "Missing required fields")
      else
        (⟨s.customers,
          s.paymentMethods ++
            [⟨s.idCounter, cid, "credit_card", some (num.takeRight 4),
              some name, some expM, some expY, none, none, none, none,
              true, true⟩],
          s.recurringPayments, s.payments, s.idCounter + 1⟩,
         .methodAdded s.idCounter (some (num.takeRight 4))
           "Credit card added successfully")
  | .addStandingOrder cid bank branch acct name =>
      if cid = 0 ∨ bank = "" ∨ branch = "" ∨ acct = "" ∨ name = "" then
        (s, .fail 400 "Missing required fields")
      else
        (⟨s.customers,
          s.paymentMethods ++
            [⟨s.idCounter, cid, "standing_order", none, none, none, none,
              some bank, some branch, some acct, some name, true, true⟩],
          s.recurringPayments, s.payments, s.idCounter + 1⟩,
         .methodAdded s.idCounter none "Standing order added successfully")
  | .createRecurring cid pmid amount sd freq ed =>
      if cid = 0 ∨ pmid = 0 ∨ sd = "" then
        (s, .fail 400 "Missing required fields")
      else
        match parseDate sd with
        | none => (s, .fail 500 "Invalid time value")
        | some start =>
            let next := advanceMonth start
            (⟨s.customers, s.paymentMethods,
              s.recurringPayments ++
                [⟨s.idCounter, cid, pmid, effAmount amount, "ILS",
                  effFreq freq, sd, effEnd ed, formatDate next, "active"⟩],
              s.payments ++
                [⟨s.idCounter + 1, cid, pmid, effAmount amount, "ILS",
                  "recurring", "pending", sd,
                  "תשלום חודשי - " ++ hebDate next⟩],
              s.idCounter + 2⟩,
             .recurringCreated s.idCounter (effAmount amount)
               ("Recurring payment of " ++ toString (effAmount amount) ++
                " ILS created successfully"))
  | .listMethods cid =>
      if cid = 0 then (s, .fail 400 "customer_id required")
      else
        (s, .methodList
              ((s.paymentMethods.filter
                  (fun m => m.customer_id == cid && m.is_active)).map toView))
  | .paymentHistory cid lim =>
      if cid = 0 then (s, .fail 400 "customer_id required")
      else
        (s, .historyList
              ((s.payments.filter (fun p => p.customer_id == cid)).take
                (effLimit lim)))
  | .cancelRecurring rid =>
      if rid = 0 then (s, .fail 400 "recurring_id required")
      else
        (⟨s.customers, s.paymentMethods, cancelIn rid s.recurringPayments,
          s.payments, s.idCounter⟩,
         .cancelled "Recurring payment cancelled")

/-- The states reachable from module load by any request sequence. -/
inductive Reachable : Store → Prop where
  | init : Reachable initStore
  | step : ∀ s req, Reachable s → Reachable (handle s req).1

/-- The correspondence between an agreement and its first ledger record that
`/create-recurring` establishes: same customer, method and amount, and the
record is due on the agreement start date in `pending` status. -/
def pairedRel (a : RecurringPayment) (p : Payment) : Prop :=
  p.customer_id = a.customer_id ∧ p.payment_method_id = a.payment_method_id ∧
  p.amount = a.amount ∧ p.due_date = a.start_date ∧ p.status = "pending"

/-- Adjacent-pairs check that a record list is in non-increasing id order.
Records are created with strictly increasing ids (`idCounter`), so creation
recency is id order. -/
def mostRecentFirstB : List Payment → Bool
  | [] => true
  | [_] => true
  | a :: b :: rest => (b.id ≤ a.id) && mostRecentFirstB (b :: rest)

/-- Most-recent-first order on ledger records: newer (higher-id) records
come before older ones. -/
def mostRecentFirst (l : List Payment) : Prop := mostRecentFirstB l = true

instance (l : List Payment) : Decidable (mostRecentFirst l) :=
  inferInstanceAs (Decidable (mostRecentFirstB l = true))

/-- A sample store holding a single active agreement (id 1), as produced by
a registration, method and agreement creation sequence. -/
def oneAgreementStore : Store :=
  ⟨[], [], [⟨1, 1, 1, 3500, "ILS", "monthly", "2024-01-01", none,
    "2024-02-01", "active"⟩], [], 2⟩

end OlamPay


namespace OlamPay

/-! ### Date arithmetic lemmas -/

theorem daysInMonth_pos (y m : Nat) : 0 < daysInMonth y m := by
  unfold daysInMonth leapFlag
  split_ifs <;> omega

theorem daysInMonth_le_31 (y m : Nat) : daysInMonth y m ≤ 31 := by
  unfold daysInMonth leapFlag
  split_ifs <;> omega

theorem daysInMonth_ge_28 (y m : Nat) : 28 ≤ daysInMonth y m := by
  unfold daysInMonth leapFlag
  split_ifs <;> omega

theorem daysInMonth_dec (y : Nat) : daysInMonth y 12 = 31 := rfl

/-- Advancing from December: January of the next year, day kept. -/
theorem advanceMonth_dec (y dd : Nat) (hdd : dd ≤ 31) :
    advanceMonth ⟨y, 12, dd⟩ = ⟨y + 1, 1, dd⟩ := by
  simp [advanceMonth, daysInMonth, leapFlag, hdd]

/-- Advancing mid-year when the day fits the target month. -/
theorem advanceMonth_mid_fit (y m dd : Nat) (hm : m ≠ 12)
    (hfit : dd ≤ daysInMonth y (m + 1)) :
    advanceMonth ⟨y, m, dd⟩ = ⟨y, m + 1, dd⟩ := by
  simp [advanceMonth, hm, hfit]

/-- Advancing mid-year when the day overflows the target month: the result
rolls into the month after it by the excess days. -/
theorem advanceMonth_mid_over (y m dd : Nat) (hm : m ≠ 12) (hm1 : m + 1 ≠ 12)
    (hover : daysInMonth y (m + 1) < dd) :
    advanceMonth ⟨y, m, dd⟩ = ⟨y, m + 2, dd - daysInMonth y (m + 1)⟩ := by
  simp [advanceMonth, hm, hm1, Nat.not_le.mpr hover]

/-- Moving from month `m` to `m+1` (same year, same day) adds exactly the
days of month `m` to the day count.  `leapFlag y` is kept as an opaque
atom: it occurs on both sides and cancels. -/
theorem toDays_next_month (y m dd : Nat) (h1 : 1 ≤ m) (h2 : m ≤ 11) :
    toDays ⟨y, m + 1, dd⟩ = toDays ⟨y, m, dd⟩ + daysInMonth y m := by
  interval_cases m <;> simp [toDays, daysBeforeMonth, daysInMonth] <;> omega

set_option maxHeartbeats 1000000 in
/-- Crossing a year boundary adds the leap-day count of the old year. -/
theorem daysBeforeYear_succ (y : Nat) :
    daysBeforeYear (y + 1) = daysBeforeYear y + 365 + leapFlag y := by
  by_cases hl : y % 4 = 0 ∧ (y % 100 ≠ 0 ∨ y % 400 = 0)
  · simp only [daysBeforeYear, leapFlag, if_pos hl]
    omega
  · simp only [daysBeforeYear, leapFlag, if_neg hl]
    omega

/-- Moving from December to January of the next year adds 31 days. -/
theorem toDays_year_rollover (y dd : Nat) :
    toDays ⟨y + 1, 1, dd⟩ = toDays ⟨y, 12, dd⟩ + 31 := by
  have h1 : daysBeforeMonth (y + 1) 1 = 0 := rfl
  have h2 : daysBeforeMonth y 12 = 334 + leapFlag y := rfl
  simp only [toDays, daysBeforeYear_succ, h1, h2]
  omega

end OlamPay

namespace OlamPay

theorem advanceMonth_toDays_aux (y m dd : Nat) (h1 : 1 ≤ m) (h2 : m ≤ 12)
    (h3 : 1 ≤ dd) (h4 : dd ≤ daysInMonth y m) :
    toDays (advanceMonth ⟨y, m, dd⟩) = toDays ⟨y, m, dd⟩ + daysInMonth y m := by
  by_cases h12 : m = 12
  · subst h12
    rw [advanceMonth_dec y dd (le_trans h4 (daysInMonth_le_31 y 12)),
      toDays_year_rollover, daysInMonth_dec]
  · have hm11 : m ≤ 11 := by omega
    by_cases hfit : dd ≤ daysInMonth y (m + 1)
    · rw [advanceMonth_mid_fit y m dd h12 hfit, toDays_next_month y m dd h1 hm11]
    · have hd31 : daysInMonth y m ≤ 31 := daysInMonth_le_31 y m
      have hm10 : m ≤ 10 := by
        by_contra hgt
        have hm11e : m = 11 := by omega
        subst hm11e
        have e12 : daysInMonth y (11 + 1) = 31 := daysInMonth_dec y
        omega
      have hov : daysInMonth y (m + 1) < dd := Nat.not_le.mp hfit
      rw [advanceMonth_mid_over y m dd h12 (by omega) hov]
      have e1 : toDays ⟨y, m + 1 + 1, dd - daysInMonth y (m + 1)⟩ =
          toDays ⟨y, m + 1, dd - daysInMonth y (m + 1)⟩ + daysInMonth y (m + 1) :=
        toDays_next_month y (m + 1) _ (by omega) (by omega)
      have e2 : toDays ⟨y, m + 1, dd - daysInMonth y (m + 1)⟩ =
          toDays ⟨y, m, dd - daysInMonth y (m + 1)⟩ + daysInMonth y m :=
        toDays_next_month y m _ h1 hm11
      have e3 : toDays ⟨y, m, dd⟩ =
          toDays ⟨y, m, dd - daysInMonth y (m + 1)⟩ + daysInMonth y (m + 1) := by
        simp only [toDays]
        omega
      have e4 : m + 2 = m + 1 + 1 := by omega
      rw [e4, e1, e2, e3]
      omega

/-- The `setMonth(getMonth()+1)` step of `/create-recurring` moves the date
forward by exactly the number of days of the source month; in particular it
does not clamp an overlong day-of-month but rolls it into the month after
the target one. -/
theorem advanceMonth_toDays (d : Date) (h : ValidDate d) :
    toDays (advanceMonth d) = toDays d + daysInMonth d.year d.month := by
  obtain ⟨y, m, dd⟩ := d
  exact advanceMonth_toDays_aux y m dd h.1 h.2.1 h.2.2.1 h.2.2.2

theorem advanceMonth_valid_aux (y m dd : Nat) (h1 : 1 ≤ m) (h2 : m ≤ 12)
    (h3 : 1 ≤ dd) (h4 : dd ≤ daysInMonth y m) :
    ValidDate (advanceMonth ⟨y, m, dd⟩) := by
  by_cases h12 : m = 12
  · subst h12
    rw [advanceMonth_dec y dd (le_trans h4 (daysInMonth_le_31 y 12))]
    have e12 : daysInMonth y 12 = 31 := daysInMonth_dec y
    have e1 : daysInMonth (y + 1) 1 = 31 := rfl
    simp only [ValidDate]
    omega
  · by_cases hfit : dd ≤ daysInMonth y (m + 1)
    · rw [advanceMonth_mid_fit y m dd h12 hfit]
      simp only [ValidDate]
      omega
    · have hd31 : daysInMonth y m ≤ 31 := daysInMonth_le_31 y m
      have hm10 : m ≤ 10 := by
        by_contra hgt
        have hm11e : m = 11 := by omega
        subst hm11e
        have e12 : daysInMonth y (11 + 1) = 31 := daysInMonth_dec y
        omega
      have hov : daysInMonth y (m + 1) < dd := Nat.not_le.mp hfit
      rw [advanceMonth_mid_over y m dd h12 (by omega) hov]
      have h28 : 28 ≤ daysInMonth y (m + 2) := daysInMonth_ge_28 y (m + 2)
      have h28b : 28 ≤ daysInMonth y (m + 1) := daysInMonth_ge_28 y (m + 1)
      simp only [ValidDate]
      omega

/-- Advancing a valid date always yields a valid calendar date: an overflow
carries at most 3 days into a month that has at least 28. -/
theorem advanceMonth_valid (d : Date) (h : ValidDate d) :
    ValidDate (advanceMonth d) := by
  obtain ⟨y, m, dd⟩ := d
  exact advanceMonth_valid_aux y m dd h.1 h.2.1 h.2.2.1 h.2.2.2

end OlamPay

namespace OlamPay

/-! ### Route equations and cancellation lemmas -/

/-- `/add-credit-card` with all required fields present: the only check the
code performs.  The stored method keeps just the last 4 characters of the
card number; the CVV is dropped after destructuring. -/
theorem handle_addCard_eq (s : Store) (cid : Nat) (num name expM expY cvv : String)
    (hc : cid ≠ 0) (hn : num ≠ "") (hh : name ≠ "") (hm : expM ≠ "") (hy : expY ≠ "") :
    handle s (.addCreditCard cid num name expM expY cvv) =
      (⟨s.customers,
        s.paymentMethods ++
          [⟨s.idCounter, cid, "credit_card", some (num.takeRight 4), some name,
            some expM, some expY, none, none, none, none, true, true⟩],
        s.recurringPayments, s.payments, s.idCounter + 1⟩,
       .methodAdded s.idCounter (some (num.takeRight 4))
         "Credit card added successfully") := by
  have hg : ¬(cid = 0 ∨ num = "" ∨ name = "" ∨ expM = "" ∨ expY = "") := by
    push_neg
    exact ⟨hc, hn, hh, hm, hy⟩
  simp only [handle, if_neg hg]

/-- `/add-standing-order` with all required fields present: the stored
method keeps the FULL account number. -/
theorem handle_addSO_eq (s : Store) (cid : Nat) (bank branch acct name : String)
    (hc : cid ≠ 0) (hb : bank ≠ "") (hr : branch ≠ "") (ha : acct ≠ "") (hh : name ≠ "") :
    handle s (.addStandingOrder cid bank branch acct name) =
      (⟨s.customers,
        s.paymentMethods ++
          [⟨s.idCounter, cid, "standing_order", none, none, none, none,
            some bank, some branch, some acct, some name, true, true⟩],
        s.recurringPayments, s.payments, s.idCounter + 1⟩,
       .methodAdded s.idCounter none "Standing order added successfully") := by
  have hg : ¬(cid = 0 ∨ bank = "" ∨ branch = "" ∨ acct = "" ∨ name = "") := by
    push_neg
    exact ⟨hc, hb, hr, ha, hh⟩
  simp only [handle, if_neg hg]

/-- `/create-recurring` with required fields present and a parseable start
date: appends exactly one active agreement and one pending first payment. -/
theorem handle_create_eq (s : Store) (cid pmid amount : Nat) (sd freq ed : String)
    (d : Date) (hc : cid ≠ 0) (hp : pmid ≠ 0) (hs : sd ≠ "")
    (hd : parseDate sd = some d) :
    handle s (.createRecurring cid pmid amount sd freq ed) =
      (⟨s.customers, s.paymentMethods,
        s.recurringPayments ++
          [⟨s.idCounter, cid, pmid, effAmount amount, "ILS", effFreq freq, sd,
            effEnd ed, formatDate (advanceMonth d), "active"⟩],
        s.payments ++
          [⟨s.idCounter + 1, cid, pmid, effAmount amount, "ILS", "recurring",
            "pending", sd, "תשלום חודשי - " ++ hebDate (advanceMonth d)⟩],
        s.idCounter + 2⟩,
       .recurringCreated s.idCounter (effAmount amount)
         ("Recurring payment of " ++ toString (effAmount amount) ++
          " ILS created successfully")) := by
  have hg : ¬(cid = 0 ∨ pmid = 0 ∨ sd = "") := by
    push_neg
    exact ⟨hc, hp, hs⟩
  simp only [handle, if_neg hg, hd]

/-- `/payment-history` with a customer id present: the store is untouched and
the response carries the first `limit || 12` matching records in insertion
order. -/
theorem handle_history_eq (s : Store) (cid lim : Nat) (hc : cid ≠ 0) :
    handle s (.paymentHistory cid lim) =
      (s, .historyList
            ((s.payments.filter (fun p => p.customer_id == cid)).take
              (effLimit lim))) := by
  simp only [handle, if_neg hc]

/-- `/cancel-recurring` with a recurring id present: the first agreement with
that id (if any) becomes cancelled, and the response is always a success. -/
theorem handle_cancel_eq (s : Store) (rid : Nat) (h : rid ≠ 0) :
    handle s (.cancelRecurring rid) =
      (⟨s.customers, s.paymentMethods, cancelIn rid s.recurringPayments,
        s.payments, s.idCounter⟩,
       .cancelled "Recurring payment cancelled") := by
  simp only [handle, if_neg h]

/-- When no agreement matches the id, the `find` misses and the mutation is
skipped entirely. -/
theorem cancelIn_of_not_mem (rid : Nat) (l : List RecurringPayment)
    (h : ∀ r ∈ l, r.id ≠ rid) : cancelIn rid l = l := by
  induction l with
  | nil => rfl
  | cons r rest ih =>
      have hr : r.id ≠ rid := h r (List.mem_cons_self r rest)
      simp only [cancelIn, if_neg hr]
      rw [ih (fun a ha => h a (List.mem_cons_of_mem r ha))]

/-- Re-cancelling changes nothing: the first matching agreement already has
status `cancelled` and keeps its id. -/
theorem cancelIn_idem (rid : Nat) (l : List RecurringPayment) :
    cancelIn rid (cancelIn rid l) = cancelIn rid l := by
  induction l with
  | nil => rfl
  | cons r rest ih =>
      by_cases hr : r.id = rid
      · have hid : (setCancelled r).id = r.id := rfl
        simp only [cancelIn, if_pos hr, hid]
        rfl
      · simp only [cancelIn, if_neg hr, ih]

/-- After cancellation, the first agreement found under the cancelled id has
status `cancelled`. -/
theorem cancelIn_find_status (rid : Nat) (l : List RecurringPayment) :
    ∀ a, (cancelIn rid l).find? (fun r => r.id == rid) = some a →
      a.status = "cancelled" := by
  induction l with
  | nil => intro a ha; simp [cancelIn] at ha
  | cons r rest ih =>
      intro a ha
      by_cases hr : r.id = rid
      · have hid : ((setCancelled r).id == rid) = true := by
          simp [setCancelled, hr]
        simp only [cancelIn, if_pos hr, List.find?, hid] at ha
        cases ha
        rfl
      · have hid : (r.id == rid) = false := by
          simp [hr]
        simp only [cancelIn, if_neg hr, List.find?, hid] at ha
        exact ih a ha

end OlamPay

namespace OlamPay

/-! ### The agreement/first-payment pairing invariant -/

theorem forall₂_snoc {α β : Type} {R : α → β → Prop} {l₁ : List α}
    {l₂ : List β} (h : List.Forall₂ R l₁ l₂) {a : α} {b : β} (hab : R a b) :
    List.Forall₂ R (l₁ ++ [a]) (l₂ ++ [b]) := by
  induction h with
  | nil => exact List.Forall₂.cons hab List.Forall₂.nil
  | cons h1 _ ih => exact List.Forall₂.cons h1 ih

/-- Cancellation only rewrites an agreement status, which the pairing
relation does not mention. -/
theorem forall₂_cancelIn (rid : Nat) {l : List RecurringPayment}
    {p : List Payment} (h : List.Forall₂ pairedRel l p) :
    List.Forall₂ pairedRel (cancelIn rid l) p := by
  induction h with
  | nil => exact List.Forall₂.nil
  | @cons a b l1 l2 h1 h2 ih =>
      by_cases hr : a.id = rid
      · simp only [cancelIn, if_pos hr]
        exact List.Forall₂.cons h1 h2
      · simp only [cancelIn, if_neg hr]
        exact List.Forall₂.cons h1 ih

/-- In every reachable state the agreements and the ledger records pair up
one-to-one, in creation order. -/
theorem reachable_paired {s : Store} (h : Reachable s) :
    List.Forall₂ pairedRel s.recurringPayments s.payments := by
  induction h with
  | init => exact List.Forall₂.nil
  | step s req hR ih =>
      cases req with
      | register pn ph em cn ca al no =>
          simp only [handle]
          split_ifs <;> exact ih
      | addCreditCard cid num name expM expY cvv =>
          simp only [handle]
          split_ifs <;> exact ih
      | addStandingOrder cid bank branch acct name =>
          simp only [handle]
          split_ifs <;> exact ih
      | createRecurring cid pmid amount sd freq ed =>
          simp only [handle]
          split_ifs with hg
          · exact ih
          · cases hp : parseDate sd with
            | none => exact ih
            | some d => exact forall₂_snoc ih ⟨rfl, rfl, rfl, rfl, rfl⟩
      | listMethods cid =>
          simp only [handle]
          split_ifs <;> exact ih
      | paymentHistory cid lim =>
          simp only [handle]
          split_ifs <;> exact ih
      | cancelRecurring rid =>
          simp only [handle]
          split_ifs with hg
          · exact ih
          · exact forall₂_cancelIn rid ih

end OlamPay

namespace OlamPay

/-! ### Claim theorems -/

/-- C1 counterexample: advancing 2024-01-31 by one month via the code's
`setMonth` arithmetic yields next_payment_date 2024-03-02, not the clamped
2024-02-29 the claim asserts. -/
theorem advance_jan31_overflows_cx :
    (handle initStore (.createRecurring 1 1 0 "2024-01-31" "" "")).1.recurringPayments.map
        (fun r => r.next_payment_date) = ["2024-03-02"] ∧
    ("2024-03-02" : String) ≠ "2024-02-29" :=
  ⟨by decide, by decide⟩

/-- C1 (amended): the monthly advance used by `/create-recurring` adds
exactly the day count of the source month — when the target month is too
short the date overflows into the following month instead of clamping;
2024-01-31 advances to 2024-03-02 and 2023-01-31 to 2023-03-03. -/
theorem advance_overflow_semantics :
    (∀ d : Date, ValidDate d →
      toDays (advanceMonth d) = toDays d + daysInMonth d.year d.month) ∧
    (parseDate "2024-01-31").map (fun d => formatDate (advanceMonth d)) =
      some "2024-03-02" ∧
    (parseDate "2023-01-31").map (fun d => formatDate (advanceMonth d)) =
      some "2023-03-03" ∧
    (handle initStore (.createRecurring 1 1 0 "2023-01-31" "" "")).1.recurringPayments.map
        (fun r => r.next_payment_date) = ["2023-03-03"] :=
  ⟨fun d h => advanceMonth_toDays d h, by decide, by decide, by decide⟩

/-- C1 (amended) witness at 2024-01-31. -/
theorem advance_overflow_semantics_witness :
    ValidDate ⟨2024, 1, 31⟩ ∧
    toDays (advanceMonth ⟨2024, 1, 31⟩) =
      toDays ⟨2024, 1, 31⟩ + daysInMonth 2024 1 :=
  ⟨by decide, advance_overflow_semantics.1 ⟨2024, 1, 31⟩ (by decide)⟩

/-- C2 counterexample: `/add-credit-card` accepts the 4-digit number `1234`
(no length or Luhn check exists) and stores a method, instead of returning a
validation failure. -/
theorem addCard_accepts_1234_cx :
    (handle initStore (.addCreditCard 1 "1234" "Israel Israeli" "12" "2030" "123")).2.isSuccess
      = true ∧
    (handle initStore (.addCreditCard 1 "1234" "Israel Israeli" "12" "2030" "123")).1.paymentMethods.map
        (fun m => m.card_number_last4) = [some "1234"] :=
  ⟨by decide, by decide⟩

/-- C2 (amended): the only check `/add-credit-card` performs is presence of
the required fields; every card number — any length, Luhn-valid or not —
is accepted, stored redacted to its last 4 characters, and the expiry is
never compared against a current date. -/
theorem addCard_no_validation (s : Store) (cid : Nat)
    (num name expM expY cvv : String) (hc : cid ≠ 0) (hn : num ≠ "")
    (hh : name ≠ "") (hm : expM ≠ "") (hy : expY ≠ "") :
    (handle s (.addCreditCard cid num name expM expY cvv)).2 =
      .methodAdded s.idCounter (some (num.takeRight 4))
        "Credit card added successfully" ∧
    (handle s (.addCreditCard cid num name expM expY cvv)).1.paymentMethods =
      s.paymentMethods ++
        [⟨s.idCounter, cid, "credit_card", some (num.takeRight 4), some name,
          some expM, some expY, none, none, none, none, true, true⟩] := by
  constructor <;> rw [handle_addCard_eq s cid num name expM expY cvv hc hn hh hm hy]

/-- C2 (amended) witness: the Luhn-invalid number 4532015112830367 is
accepted and stored. -/
theorem addCard_no_validation_witness :
    ("4532015112830367" : String) ≠ "" ∧
    ((handle initStore (.addCreditCard 1 "4532015112830367" "Joe" "12" "2030" "999")).2 =
      .methodAdded initStore.idCounter (some ("4532015112830367".takeRight 4))
        "Credit card added successfully" ∧
    (handle initStore (.addCreditCard 1 "4532015112830367" "Joe" "12" "2030" "999")).1.paymentMethods =
      initStore.paymentMethods ++
        [⟨initStore.idCounter, 1, "credit_card",
          some ("4532015112830367".takeRight 4), some "Joe", some "12",
          some "2030", none, none, none, none, true, true⟩]) :=
  ⟨by decide,
   addCard_no_validation initStore 1 "4532015112830367" "Joe" "12" "2030" "999"
     (by decide) (by decide) (by decide) (by decide) (by decide)⟩

/-- C9: the code's monthly advance strictly increases the date and maps
valid calendar dates to valid calendar dates, twice over. -/
theorem advance_strictly_increases (d : Date) (h : ValidDate d) :
    ValidDate (advanceMonth d) ∧ toDays d < toDays (advanceMonth d) ∧
    ValidDate (advanceMonth (advanceMonth d)) ∧
    toDays (advanceMonth d) < toDays (advanceMonth (advanceMonth d)) := by
  have h1 := advanceMonth_valid d h
  have h2 := advanceMonth_valid _ h1
  have e1 := advanceMonth_toDays d h
  have e2 := advanceMonth_toDays _ h1
  have p1 := daysInMonth_pos d.year d.month
  have p2 := daysInMonth_pos (advanceMonth d).year (advanceMonth d).month
  exact ⟨h1, by omega, h2, by omega⟩

/-- C9 witness at 2024-01-31. -/
theorem advance_strictly_increases_witness :
    ValidDate ⟨2024, 1, 31⟩ ∧
    (ValidDate (advanceMonth ⟨2024, 1, 31⟩) ∧
     toDays ⟨2024, 1, 31⟩ < toDays (advanceMonth ⟨2024, 1, 31⟩) ∧
     ValidDate (advanceMonth (advanceMonth ⟨2024, 1, 31⟩)) ∧
     toDays (advanceMonth ⟨2024, 1, 31⟩) <
       toDays (advanceMonth (advanceMonth ⟨2024, 1, 31⟩))) :=
  ⟨by decide, advance_strictly_increases ⟨2024, 1, 31⟩ (by decide)⟩

end OlamPay

namespace OlamPay

/-- C3 counterexample: a successful `/add-standing-order` stores the FULL
bank account number in the vault, reachable from the empty state — the
claim that only a last-4 redaction is ever stored is false. -/
theorem addSO_full_account_stored_cx :
    Reachable (handle initStore (.addStandingOrder 1 "12" "345" "123456789" "Israel")).1 ∧
    (handle initStore (.addStandingOrder 1 "12" "345" "123456789" "Israel")).1.paymentMethods.map
        (fun m => m.account_number) = [some "123456789"] :=
  ⟨Reachable.step _ _ Reachable.init, by decide⟩

/-- C3 (amended): card methods store only the last 4 characters of the card
number, never the CVV (the stored object has no CVV field at all); bank
methods however store the full account number — its last-4 redaction occurs
only in the `/payment-methods` listing view, which also masks the card
number. -/
theorem vault_storage_shape :
    (∀ (s : Store) (cid : Nat) (num name expM expY cvv : String),
      cid ≠ 0 → num ≠ "" → name ≠ "" → expM ≠ "" → expY ≠ "" →
      (handle s (.addCreditCard cid num name expM expY cvv)).1.paymentMethods =
        s.paymentMethods ++
          [⟨s.idCounter, cid, "credit_card", some (num.takeRight 4), some name,
            some expM, some expY, none, none, none, none, true, true⟩]) ∧
    (∀ (s : Store) (cid : Nat) (bank branch acct name : String),
      cid ≠ 0 → bank ≠ "" → branch ≠ "" → acct ≠ "" → name ≠ "" →
      (handle s (.addStandingOrder cid bank branch acct name)).1.paymentMethods =
        s.paymentMethods ++
          [⟨s.idCounter, cid, "standing_order", none, none, none, none,
            some bank, some branch, some acct, some name, true, true⟩]) ∧
    (∀ (m : PaymentMethod) (a : String), m.account_number = some a →
      (toView m).account_number = some ("****" ++ a.takeRight 4)) ∧
    (∀ (m : PaymentMethod) (l4 : String), m.card_number_last4 = some l4 →
      (toView m).card_number = some ("****" ++ l4)) := by
  refine ⟨?_, ?_, ?_, ?_⟩
  · intro s cid num name expM expY cvv hc hn hh hm hy
    rw [handle_addCard_eq s cid num name expM expY cvv hc hn hh hm hy]
  · intro s cid bank branch acct name hc hb hr ha hh
    rw [handle_addSO_eq s cid bank branch acct name hc hb hr ha hh]
  · intro m a hma
    simp [toView, hma]
  · intro m l4 hml
    simp [toView, hml]

/-- C3 (amended) witness: the bank branch at a concrete request. -/
theorem vault_storage_shape_witness :
    ("123456789" : String) ≠ "" ∧
    (handle initStore (.addStandingOrder 1 "12" "345" "123456789" "Israel")).1.paymentMethods =
      initStore.paymentMethods ++
        [⟨initStore.idCounter, 1, "standing_order", none, none, none, none,
          some "12", some "345", some "123456789", some "Israel", true, true⟩] :=
  ⟨by decide,
   vault_storage_shape.2.1 initStore 1 "12" "345" "123456789" "Israel"
     (by decide) (by decide) (by decide) (by decide) (by decide)⟩

/-- C4: a successful `/create-recurring` appends exactly one active
agreement whose next due date is the advanced start date, together with
exactly one pending first payment due on the start date; and in every
reachable state the agreements and ledger records pair up one-to-one. -/
theorem createRecurring_atomic_pairing :
    (∀ (s : Store) (cid pmid amount : Nat) (sd freq ed : String) (d : Date),
      cid ≠ 0 → pmid ≠ 0 → sd ≠ "" → parseDate sd = some d →
      ∃ a p,
        (handle s (.createRecurring cid pmid amount sd freq ed)).1.recurringPayments =
          s.recurringPayments ++ [a] ∧
        a.status = "active" ∧ a.start_date = sd ∧
        a.next_payment_date = formatDate (advanceMonth d) ∧
        (handle s (.createRecurring cid pmid amount sd freq ed)).1.payments =
          s.payments ++ [p] ∧
        p.status = "pending" ∧ p.due_date = sd ∧ p.customer_id = cid ∧
        (handle s (.createRecurring cid pmid amount sd freq ed)).2.isSuccess = true) ∧
    (∀ s : Store, Reachable s →
      List.Forall₂ pairedRel s.recurringPayments s.payments) := by
  constructor
  · intro s cid pmid amount sd freq ed d hc hp hs hd
    refine ⟨⟨s.idCounter, cid, pmid, effAmount amount, "ILS", effFreq freq, sd,
        effEnd ed, formatDate (advanceMonth d), "active"⟩,
      ⟨s.idCounter + 1, cid, pmid, effAmount amount, "ILS", "recurring",
        "pending", sd, "תשלום חודשי - " ++ hebDate (advanceMonth d)⟩,
      ?_, rfl, rfl, rfl, ?_, rfl, rfl, rfl, ?_⟩ <;>
      (rw [handle_create_eq s cid pmid amount sd freq ed d hc hp hs hd]; try rfl)
  · exact fun s h => reachable_paired h

/-- C4 witness: concrete creation from the empty store, and the pairing at
the initial state. -/
theorem createRecurring_atomic_pairing_witness :
    parseDate "2024-01-15" = some ⟨2024, 1, 15⟩ ∧
    (∃ a p,
      (handle initStore (.createRecurring 1 1 0 "2024-01-15" "" "")).1.recurringPayments =
        initStore.recurringPayments ++ [a] ∧
      a.status = "active" ∧ a.start_date = "2024-01-15" ∧
      a.next_payment_date = formatDate (advanceMonth ⟨2024, 1, 15⟩) ∧
      (handle initStore (.createRecurring 1 1 0 "2024-01-15" "" "")).1.payments =
        initStore.payments ++ [p] ∧
      p.status = "pending" ∧ p.due_date = "2024-01-15" ∧ p.customer_id = 1 ∧
      (handle initStore (.createRecurring 1 1 0 "2024-01-15" "" "")).2.isSuccess = true) ∧
    List.Forall₂ pairedRel initStore.recurringPayments initStore.payments :=
  ⟨by decide,
   createRecurring_atomic_pairing.1 initStore 1 1 0 "2024-01-15" "" ""
     ⟨2024, 1, 15⟩ (by decide) (by decide) (by decide) (by decide),
   createRecurring_atomic_pairing.2 initStore Reachable.init⟩

/-- C5 counterexample: after two agreement creations for customer 1, the
history endpoint returns the records oldest-first (insertion order), not
most-recent-first — the later-created record (id 4, due 2024-02-01) comes
second, not first. -/
theorem history_oldest_first_cx :
    ((handle (handle (handle initStore (.createRecurring 1 1 0 "2024-01-01" "" "")).1
        (.createRecurring 1 1 0 "2024-02-01" "" "")).1
        (.paymentHistory 1 0)).2.historyPayments).map (fun p => p.id) = [2, 4] ∧
    ((handle (handle (handle initStore (.createRecurring 1 1 0 "2024-01-01" "" "")).1
        (.createRecurring 1 1 0 "2024-02-01" "" "")).1
        (.paymentHistory 1 0)).2.historyPayments).map (fun p => p.due_date) =
      ["2024-01-01", "2024-02-01"] ∧
    ¬ mostRecentFirst
      ((handle (handle (handle initStore (.createRecurring 1 1 0 "2024-01-01" "" "")).1
        (.createRecurring 1 1 0 "2024-02-01" "" "")).1
        (.paymentHistory 1 0)).2.historyPayments) :=
  ⟨by decide, by decide, by decide⟩

/-- C5 (amended): `/payment-history` returns at most `limit` records
(`limit` absent or 0 is treated as 12), taken from the start of the stored
ledger in insertion (oldest-first) order; an unknown customer id yields an
empty list as a success, and the store is untouched. -/
theorem history_cap_order_unknown (s : Store) (cid lim : Nat) (hc : cid ≠ 0) :
    ∃ L, handle s (.paymentHistory cid lim) = (s, .historyList L) ∧
      L.length ≤ effLimit lim ∧ L.Sublist s.payments ∧
      (∀ p ∈ L, p.customer_id = cid) ∧
      ((∀ p ∈ s.payments, p.customer_id ≠ cid) → L = []) := by
  refine ⟨_, handle_history_eq s cid lim hc, ?_, ?_, ?_, ?_⟩
  · rw [List.length_take]
    exact Nat.min_le_left _ _
  · exact (List.take_sublist _ _).trans (List.filter_sublist _)
  · intro p hp
    have hmem := List.take_subset _ _ hp
    have := (List.mem_filter.mp hmem).2
    exact beq_iff_eq.mp this
  · intro hnone
    have hfil : s.payments.filter (fun p => p.customer_id == cid) = [] :=
      List.filter_eq_nil_iff.mpr (fun a ha => by simp [hnone a ha])
    rw [hfil]
    exact List.take_nil

/-- C5 (amended) witness at the empty store. -/
theorem history_cap_order_unknown_witness :
    (1 : Nat) ≠ 0 ∧
    ∃ L, handle initStore (.paymentHistory 1 0) = (initStore, .historyList L) ∧
      L.length ≤ effLimit 0 ∧ L.Sublist initStore.payments ∧
      (∀ p ∈ L, p.customer_id = 1) ∧
      ((∀ p ∈ initStore.payments, p.customer_id ≠ 1) → L = []) :=
  ⟨by decide, history_cap_order_unknown initStore 1 0 (by decide)⟩

end OlamPay

namespace OlamPay

/-- C6 counterexample: adding two credit cards for the same customer leaves
TWO methods of the same kind flagged as default in a reachable state — the
code never clears the previous default. -/
theorem two_defaults_same_kind_cx :
    Reachable (handle (handle initStore
        (.addCreditCard 1 "4532015112830366" "A" "12" "2030" "1")).1
        (.addCreditCard 1 "4111111111111111" "A" "12" "2030" "1")).1 ∧
    ((handle (handle initStore
        (.addCreditCard 1 "4532015112830366" "A" "12" "2030" "1")).1
        (.addCreditCard 1 "4111111111111111" "A" "12" "2030" "1")).1.paymentMethods.filter
      (fun m => m.customer_id == 1 && m.payment_type == "credit_card" &&
        m.is_default)).length = 2 :=
  ⟨Reachable.step _ _ (Reachable.step _ _ Reachable.init), by decide⟩

/-- C6 (amended): every successful add sets `is_default` on the new method
unconditionally and leaves all previously stored methods untouched, so
default flags accumulate — there is no last-write-wins clearing and no
set-default operation at all. -/
theorem add_method_defaults_accumulate :
    (∀ (s : Store) (cid : Nat) (num name expM expY cvv : String),
      cid ≠ 0 → num ≠ "" → name ≠ "" → expM ≠ "" → expY ≠ "" →
      ∃ m, (handle s (.addCreditCard cid num name expM expY cvv)).1.paymentMethods =
          s.paymentMethods ++ [m] ∧
        m.is_default = true ∧ m.payment_type = "credit_card") ∧
    (∀ (s : Store) (cid : Nat) (bank branch acct name : String),
      cid ≠ 0 → bank ≠ "" → branch ≠ "" → acct ≠ "" → name ≠ "" →
      ∃ m, (handle s (.addStandingOrder cid bank branch acct name)).1.paymentMethods =
          s.paymentMethods ++ [m] ∧
        m.is_default = true ∧ m.payment_type = "standing_order") := by
  constructor
  · intro s cid num name expM expY cvv hc hn hh hm hy
    exact ⟨_, by rw [handle_addCard_eq s cid num name expM expY cvv hc hn hh hm hy],
      rfl, rfl⟩
  · intro s cid bank branch acct name hc hb hr ha hh
    exact ⟨_, by rw [handle_addSO_eq s cid bank branch acct name hc hb hr ha hh],
      rfl, rfl⟩

/-- C6 (amended) witness at a concrete card request. -/
theorem add_method_defaults_accumulate_witness :
    (1 : Nat) ≠ 0 ∧
    ∃ m, (handle initStore
        (.addCreditCard 1 "4532015112830366" "A" "12" "2030" "1")).1.paymentMethods =
      initStore.paymentMethods ++ [m] ∧
      m.is_default = true ∧ m.payment_type = "credit_card" :=
  ⟨by decide,
   add_method_defaults_accumulate.1 initStore 1 "4532015112830366" "A" "12" "2030" "1"
     (by decide) (by decide) (by decide) (by decide) (by decide)⟩

/-- C7: cancellation is idempotent — re-sending `/cancel-recurring` leaves
the store and the response exactly as after the first call; with an id
present the response is always the success message, and the agreement found
under the cancelled id is in the terminal `cancelled` status. -/
theorem cancelRecurring_idempotent (s : Store) (rid : Nat) :
    handle (handle s (.cancelRecurring rid)).1 (.cancelRecurring rid) =
      handle s (.cancelRecurring rid) ∧
    (rid ≠ 0 →
      (handle s (.cancelRecurring rid)).2 =
        .cancelled "Recurring payment cancelled" ∧
      ∀ a, (handle s (.cancelRecurring rid)).1.recurringPayments.find?
          (fun r => r.id == rid) = some a → a.status = "cancelled") := by
  by_cases h : rid = 0
  · subst h
    exact ⟨rfl, fun h0 => absurd rfl h0⟩
  · refine ⟨?_, fun _ => ⟨by rw [handle_cancel_eq s rid h], ?_⟩⟩
    · rw [handle_cancel_eq s rid h, handle_cancel_eq _ rid h]
      simp only [cancelIn_idem]
    · intro a ha
      rw [handle_cancel_eq s rid h] at ha
      exact cancelIn_find_status rid s.recurringPayments a ha

/-- C7 witness on a store holding one active agreement. -/
theorem cancelRecurring_idempotent_witness :
    handle (handle oneAgreementStore (.cancelRecurring 1)).1 (.cancelRecurring 1) =
      handle oneAgreementStore (.cancelRecurring 1) ∧
    (handle oneAgreementStore (.cancelRecurring 1)).2 =
      .cancelled "Recurring payment cancelled" :=
  ⟨(cancelRecurring_idempotent oneAgreementStore 1).1,
   ((cancelRecurring_idempotent oneAgreementStore 1).2 (by decide)).1⟩

/-- C8 counterexample: the empty store has no customers at all, yet
`/add-credit-card` for customer 999 succeeds and stores a method — no
NotFound error exists. -/
theorem addCard_unknown_customer_cx :
    initStore.customers = [] ∧
    (handle initStore (.addCreditCard 999 "4532015112830366" "Joe" "12" "2030" "1")).2.isSuccess
      = true ∧
    (handle initStore (.addCreditCard 999 "4532015112830366" "Joe" "12" "2030" "1")).1.paymentMethods.map
        (fun m => m.customer_id) = [999] :=
  ⟨rfl, by decide, by decide⟩

/-- C8 (amended): `/add-credit-card` never consults the customer registry;
any nonzero customer id with the required fields present succeeds and
stores a method under that id, even when no such customer exists. -/
theorem addCard_ignores_registry (s : Store) (cid : Nat)
    (num name expM expY cvv : String) (hc : cid ≠ 0) (hn : num ≠ "")
    (hh : name ≠ "") (hm : expM ≠ "") (hy : expY ≠ "")
    (_hmiss : ∀ c ∈ s.customers, c.id ≠ cid) :
    (handle s (.addCreditCard cid num name expM expY cvv)).2.isSuccess = true ∧
    ∃ m, (handle s (.addCreditCard cid num name expM expY cvv)).1.paymentMethods =
        s.paymentMethods ++ [m] ∧ m.customer_id = cid := by
  refine ⟨?_, ⟨⟨s.idCounter, cid, "credit_card", some (num.takeRight 4),
      some name, some expM, some expY, none, none, none, none, true, true⟩,
    ?_, rfl⟩⟩ <;>
    (rw [handle_addCard_eq s cid num name expM expY cvv hc hn hh hm hy]; try rfl)

/-- C8 (amended) witness at the empty store with customer id 999. -/
theorem addCard_ignores_registry_witness :
    (∀ c ∈ initStore.customers, c.id ≠ 999) ∧
    ((handle initStore (.addCreditCard 999 "4532015112830366" "Joe" "12" "2030" "1")).2.isSuccess
        = true ∧
     ∃ m, (handle initStore (.addCreditCard 999 "4532015112830366" "Joe" "12" "2030" "1")).1.paymentMethods =
        initStore.paymentMethods ++ [m] ∧ m.customer_id = 999) :=
  ⟨by decide,
   addCard_ignores_registry initStore 999 "4532015112830366" "Joe" "12" "2030" "1"
     (by decide) (by decide) (by decide) (by decide) (by decide) (by decide)⟩

/-- C10: cancelling an id that matches no stored agreement still answers
with the success message and leaves the whole store — customers, methods,
agreements, ledger and counter — completely unchanged. -/
theorem cancel_unknown_id_noop (s : Store) (rid : Nat) (h : rid ≠ 0)
    (hmiss : ∀ r ∈ s.recurringPayments, r.id ≠ rid) :
    handle s (.cancelRecurring rid) =
      (s, .cancelled "Recurring payment cancelled") := by
  rw [handle_cancel_eq s rid h, cancelIn_of_not_mem rid s.recurringPayments hmiss]

/-- C10 witness: cancelling id 2 on a store holding only agreement id 1. -/
theorem cancel_unknown_id_noop_witness :
    (∀ r ∈ oneAgreementStore.recurringPayments, r.id ≠ 2) ∧
    handle oneAgreementStore (.cancelRecurring 2) =
      (oneAgreementStore, .cancelled "Recurring payment cancelled") :=
  ⟨by decide, cancel_unknown_id_noop oneAgreementStore 2 (by decide) (by decide)⟩

end OlamPay
